import Mathlib

/-!
Shallow embedding of `src/starknet.rs` from the `bevy_dojo` repository:
the Starknet connection lifecycle state machine (`StarknetConnection`),
the user-facing operations `init_starknet_connection` and
`execute_transaction`, and the per-tick reconciler system `check_sn_task`.

Modelling conventions:
* An account (`Arc<SingleOwnerAccount<..>>`) is opaque to the lifecycle
  logic; it is modelled as a `Nat` identifier.
* A spawned tokio task is modelled by the value that `block_on(task.await)`
  eventually yields.  A connect task (`JoinHandle<Arc<SingleOwnerAccount>>`)
  yields `Ok(account)` or a `JoinError` (the spawned `connect_to_starknet`
  panicked on a bad credential / URL / chain-id fetch); this join result is
  `Option Nat` (`none` = `JoinError`).  A transaction task
  (`JoinHandle<Result<InvokeTransactionResult, AccountError>>`) yields a
  doubly-nested result, modelled `Option (Option Nat)`: outer `none` =
  `JoinError`, inner `none` = `Err(AccountError)`, `some h` = the
  transaction hash of the `InvokeTransactionResult`.
* The side effects of one call (`runtime.spawn`, `block_on` of a join, the
  queue pop) are recorded in a ghost `List Event` returned next to the new
  state, so that spawn counts and observation order can be stated.
-/

/-- The join result of a spawned connect task: `some a` models
`Ok(Arc<SingleOwnerAccount>)` with account identity `a`, `none` models the
`JoinError` produced when `connect_to_starknet` panics (invalid RPC URL,
invalid account address, invalid private key, or failed `chain_id()` fetch;
see `connect_to_starknet`, starknet.rs lines 251-270). -/
structure ConnectTask where
  result : Option Nat
deriving DecidableEq, Repr

/-- A pending transaction task in `pending_txs`: `id` tags the enqueue for
order-of-observation statements; `result` is what `block_on(task.await)`
yields (`none` = `JoinError`, `some none` = `Err(AccountError)`,
`some (some h)` = `Ok` with transaction hash `h`). -/
structure TxTask where
  id : Nat
  result : Option (Option Nat)
deriving DecidableEq, Repr

/-- The `StarknetConnection` resource (starknet.rs lines 40-47):
an optional in-flight connect task, an optional established account, and a
FIFO `VecDeque` of pending transaction tasks (modelled as a list whose head
is the deque front). -/
structure StarknetConnection where
  connecting_task : Option ConnectTask
  account : Option Nat
  pending_txs : List TxTask
deriving DecidableEq, Repr

/-- `#[derive(Default)]` on `StarknetConnection`: no connect task, no
account, empty queue. -/
def defaultConnection : StarknetConnection :=
  ⟨none, none, []⟩

/-- `StarknetConnection::is_connected` (starknet.rs line 51). -/
def StarknetConnection.is_connected (sn : StarknetConnection) : Bool :=
  sn.account.isSome

/-- `StarknetConnection::is_connecting` (starknet.rs line 56). -/
def StarknetConnection.is_connecting (sn : StarknetConnection) : Bool :=
  sn.connecting_task.isSome

/-- `StarknetConnection::pending_tx_count` (starknet.rs line 61). -/
def StarknetConnection.pending_tx_count (sn : StarknetConnection) : Nat :=
  sn.pending_txs.length

/-- Ghost record of the side effects of one call: a connect task spawned
(`runtime.spawn` in `init_starknet_connection`), a connect join observed
with `Ok` / `Err` (`block_on` in `check_sn_task`), a transaction task
spawned (`runtime.spawn` in `execute_transaction`), or a queue entry popped
and joined (`pop_front` + `block_on` in `check_sn_task`). -/
inductive Event where
  | connectSpawned
  | connectJoinOk
  | connectJoinErr
  | txSpawned (id : Nat)
  | txJoin (id : Nat) (r : Option (Option Nat))
deriving DecidableEq, Repr

/-- `init_starknet_connection` (starknet.rs lines 129-142).  When neither a
connect task nor an account is present it spawns one connect task and
stores the handle; otherwise it does nothing.  `newTask` is the handle the
spawn would produce (its eventual join result is fixed by the config and
the environment). -/
def init_starknet_connection (newTask : ConnectTask) (sn : StarknetConnection) :
    StarknetConnection × List Event :=
  if sn.connecting_task.isNone && sn.account.isNone then
    (⟨some newTask, sn.account, sn.pending_txs⟩, [Event.connectSpawned])
  else
    (sn, [])

/-- `execute_transaction` (starknet.rs lines 189-205).  With an account
present it spawns a submission task (capturing a clone of the account),
pushes the handle at the back of `pending_txs` and returns `true`;
otherwise it returns `false` and does nothing. -/
def execute_transaction (newTask : TxTask) (sn : StarknetConnection) :
    StarknetConnection × Bool × List Event :=
  match sn.account with
  | some _ =>
      (⟨sn.connecting_task, sn.account, sn.pending_txs ++ [newTask]⟩, true,
        [Event.txSpawned newTask.id])
  | none => (sn, false, [])

/-- The connection half of `check_sn_task` (starknet.rs lines 221-227):
`if let Some(task) = &mut sn.connecting_task`, join it with `block_on`; on
`Ok(account)` store the account and clear the task; on `Err` (the spawned
connect panicked) the `if let Ok` pattern fails and nothing is written. -/
def check_conn_step (sn : StarknetConnection) : StarknetConnection × List Event :=
  match sn.connecting_task with
  | none => (sn, [])
  | some task =>
      match task.result with
      | some a => (⟨none, some a, sn.pending_txs⟩, [Event.connectJoinOk])
      | none => (sn, [Event.connectJoinErr])

/-- The pending-transaction half of `check_sn_task` (starknet.rs lines
230-236): when the queue is non-empty and an account is present, pop the
front handle and join it (the outcome is only logged; the entry is gone
either way). -/
def check_tx_step (sn : StarknetConnection) : StarknetConnection × List Event :=
  if !sn.pending_txs.isEmpty && sn.account.isSome then
    match sn.pending_txs with
    | [] => (sn, [])
    | t :: rest => (⟨sn.connecting_task, sn.account, rest⟩, [Event.txJoin t.id t.result])
  else
    (sn, [])

/-- `check_sn_task` (starknet.rs lines 219-237): the connection step
followed by the queue step, in that order, on the same resource. -/
def check_sn_task (sn : StarknetConnection) : StarknetConnection × List Event :=
  ((check_tx_step (check_conn_step sn).1).1,
    (check_conn_step sn).2 ++ (check_tx_step (check_conn_step sn).1).2)

/-- One host-side call into the core: `init_starknet_connection` with the
connect task a spawn would create, `execute_transaction` with the
submission task a spawn would create, or one `check_sn_task` tick. -/
inductive Op where
  | init (t : ConnectTask)
  | exec (t : TxTask)
  | check
deriving DecidableEq, Repr

/-- Apply one call to the resource, returning the new state and the ghost
events of that call. -/
def applyOp (o : Op) (sn : StarknetConnection) : StarknetConnection × List Event :=
  match o with
  | Op.init t => init_starknet_connection t sn
  | Op.exec t => ((execute_transaction t sn).1, (execute_transaction t sn).2.2)
  | Op.check => check_sn_task sn

/-- Run a sequence of calls, concatenating their ghost events. -/
def runTrace (ops : List Op) (sn : StarknetConnection) : StarknetConnection × List Event :=
  match ops with
  | [] => (sn, [])
  | o :: rest =>
      ((runTrace rest (applyOp o sn).1).1,
        (applyOp o sn).2 ++ (runTrace rest (applyOp o sn).1).2)

/-- The state reached from the `Default` resource by a sequence of calls:
the reachable states of the core. -/
def reach (ops : List Op) : StarknetConnection :=
  (runTrace ops defaultConnection).1

/-- `n` consecutive `check_sn_task` ticks, concatenating their ghost
events. -/
def pollAll (n : Nat) (sn : StarknetConnection) : StarknetConnection × List Event :=
  match n with
  | 0 => (sn, [])
  | Nat.succ m =>
      ((pollAll m (check_sn_task sn).1).1,
        (check_sn_task sn).2 ++ (pollAll m (check_sn_task sn).1).2)

/-- Recognizer for connect-spawn events. -/
def isConnectSpawn : Event → Bool
  | Event.connectSpawned => true
  | _ => false

/-- Recognizer for connect-join events (either outcome). -/
def isConnectJoin : Event → Bool
  | Event.connectJoinOk => true
  | Event.connectJoinErr => true
  | _ => false

/-- Recognizer for queue-pop (transaction join) events. -/
def isTxJoin : Event → Bool
  | Event.txJoin _ _ => true
  | _ => false

/-- Unfolding lemma: a trace step with `Op.init`. -/
theorem applyOp_init (t : ConnectTask) (sn : StarknetConnection) :
    applyOp (Op.init t) sn = init_starknet_connection t sn := rfl

/-- Unfolding lemma: a trace step with `Op.exec`. -/
theorem applyOp_exec (t : TxTask) (sn : StarknetConnection) :
    applyOp (Op.exec t) sn = ((execute_transaction t sn).1, (execute_transaction t sn).2.2) := rfl

/-- Unfolding lemma: a trace step with `Op.check`. -/
theorem applyOp_check (sn : StarknetConnection) :
    applyOp Op.check sn = check_sn_task sn := rfl

/-- Case lemma: the connection step with no connect task in flight. -/
theorem check_conn_step_none (sn : StarknetConnection) (h : sn.connecting_task = none) :
    check_conn_step sn = (sn, []) := by
  unfold check_conn_step
  rw [h]

/-- Case lemma: the connection step when the join yields `Ok(account)`. -/
theorem check_conn_step_ok (sn : StarknetConnection) (task : ConnectTask) (a : Nat)
    (h : sn.connecting_task = some task) (hr : task.result = some a) :
    check_conn_step sn = (⟨none, some a, sn.pending_txs⟩, [Event.connectJoinOk]) := by
  obtain ⟨r⟩ := task
  simp only at hr
  subst hr
  unfold check_conn_step
  rw [h]

/-- Case lemma: the connection step when the join yields a `JoinError`. -/
theorem check_conn_step_err (sn : StarknetConnection) (task : ConnectTask)
    (h : sn.connecting_task = some task) (hr : task.result = none) :
    check_conn_step sn = (sn, [Event.connectJoinErr]) := by
  obtain ⟨r⟩ := task
  simp only at hr
  subst hr
  unfold check_conn_step
  rw [h]

/-- Frame lemma: the queue step never writes the connecting-task slot. -/
theorem check_tx_step_connecting_eq (sn : StarknetConnection) :
    (check_tx_step sn).1.connecting_task = sn.connecting_task := by
  unfold check_tx_step
  split
  · split <;> rfl
  · rfl

/-- Frame lemma: the queue step never writes the account slot. -/
theorem check_tx_step_account_eq (sn : StarknetConnection) :
    (check_tx_step sn).1.account = sn.account := by
  unfold check_tx_step
  split
  · split <;> rfl
  · rfl

/-- The queue step leaves the queue alone or removes exactly its head. -/
theorem check_tx_step_pending (sn : StarknetConnection) :
    (check_tx_step sn).1.pending_txs = sn.pending_txs ∨
    (check_tx_step sn).1.pending_txs = sn.pending_txs.tail := by
  unfold check_tx_step
  split
  · split
    · left; rfl
    · right
      rename_i heq
      rw [heq]
      rfl
  · left; rfl

/-- Case lemma: the queue step with no account present does nothing. -/
theorem check_tx_step_no_account (sn : StarknetConnection) (h : sn.account = none) :
    check_tx_step sn = (sn, []) := by
  unfold check_tx_step
  rw [h]
  simp

/-- Frame lemma: the connection step never touches the queue. -/
theorem check_conn_step_pending_eq (sn : StarknetConnection) :
    (check_conn_step sn).1.pending_txs = sn.pending_txs := by
  obtain ⟨ct, ac, txs⟩ := sn
  cases ct with
  | none => rfl
  | some task =>
      obtain ⟨r⟩ := task
      cases r <;> rfl

/-- Mutual exclusion of the connecting-task slot and the account slot. -/
def MutexInv (sn : StarknetConnection) : Prop :=
  sn.connecting_task = none ∨ sn.account = none

/-- Every single call preserves mutual exclusion. -/
theorem mutex_applyOp (o : Op) (sn : StarknetConnection) (h : MutexInv sn) :
    MutexInv (applyOp o sn).1 := by
  cases o with
  | init t =>
      rw [applyOp_init]
      unfold init_starknet_connection
      split
      · rename_i hg
        rw [Bool.and_eq_true, Option.isNone_iff_eq_none, Option.isNone_iff_eq_none] at hg
        exact Or.inr hg.2
      · exact h
  | exec t =>
      rw [applyOp_exec]
      unfold MutexInv at h ⊢
      unfold execute_transaction
      obtain ⟨ct, ac, txs⟩ := sn
      cases ac <;> simp_all
  | check =>
      rw [applyOp_check]
      have h1 : MutexInv (check_conn_step sn).1 := by
        obtain ⟨ct, ac, txs⟩ := sn
        cases ct with
        | none => exact h
        | some task =>
            obtain ⟨r⟩ := task
            cases r with
            | none => exact h
            | some a => exact Or.inl rfl
      unfold check_sn_task MutexInv
      rw [check_tx_step_connecting_eq, check_tx_step_account_eq]
      exact h1

/-- A whole trace preserves mutual exclusion. -/
theorem mutex_runTrace (ops : List Op) (sn : StarknetConnection) (h : MutexInv sn) :
    MutexInv (runTrace ops sn).1 := by
  induction ops generalizing sn with
  | nil => exact h
  | cons o rest ih => exact ih (applyOp o sn).1 (mutex_applyOp o sn h)

/-- Mutual exclusion holds at every reachable state. -/
theorem mutex_reach (ops : List Op) : MutexInv (reach ops) :=
  mutex_runTrace ops defaultConnection (Or.inl rfl)

/-- The connected configuration: an account is present and no connect
task is held. -/
def ConnectedState (sn : StarknetConnection) : Prop :=
  sn.account.isSome = true ∧ sn.connecting_task = none

/-- Every single call preserves the connected configuration. -/
theorem connected_applyOp (o : Op) (sn : StarknetConnection) (h : ConnectedState sn) :
    ConnectedState (applyOp o sn).1 := by
  obtain ⟨ha, hc⟩ := h
  cases o with
  | init t =>
      rw [applyOp_init]
      unfold init_starknet_connection
      split
      · rename_i hg
        rw [Bool.and_eq_true, Option.isNone_iff_eq_none, Option.isNone_iff_eq_none] at hg
        rw [hg.2] at ha
        simp at ha
      · exact ⟨ha, hc⟩
  | exec t =>
      rw [applyOp_exec]
      unfold execute_transaction
      obtain ⟨ct, ac, txs⟩ := sn
      cases ac with
      | none => simp at ha
      | some a => exact ⟨ha, hc⟩
  | check =>
      rw [applyOp_check]
      unfold check_sn_task
      constructor
      · rw [check_tx_step_account_eq, check_conn_step_none sn hc]
        exact ha
      · rw [check_tx_step_connecting_eq, check_conn_step_none sn hc]
        exact hc

/-- A whole trace started in the connected configuration stays in it. -/
theorem connected_runTrace (ops : List Op) (sn : StarknetConnection) (h : ConnectedState sn) :
    ConnectedState (runTrace ops sn).1 := by
  induction ops generalizing sn with
  | nil => exact h
  | cons o rest ih => exact ih (applyOp o sn).1 (connected_applyOp o sn h)

/-- When a connect task or an account is already present,
`init_starknet_connection` is a no-op with no spawn. -/
theorem init_busy (t : ConnectTask) (sn : StarknetConnection)
    (h : sn.is_connecting = true ∨ sn.is_connected = true) :
    init_starknet_connection t sn = (sn, []) := by
  obtain ⟨ct, ac, txs⟩ := sn
  unfold StarknetConnection.is_connecting StarknetConnection.is_connected at h
  unfold init_starknet_connection
  cases ct <;> cases ac <;> simp_all

/-- A busy state absorbs any run of `init` calls: no state change, no
events at all. -/
theorem runTrace_inits_busy (ts : List ConnectTask) (sn : StarknetConnection)
    (h : sn.is_connecting = true ∨ sn.is_connected = true) :
    runTrace (ts.map Op.init) sn = (sn, []) := by
  induction ts with
  | nil => rfl
  | cons t rest ih =>
      unfold runTrace
      rw [List.map_cons]
      simp only [applyOp_init, init_busy t sn h, ih]
      rfl

/-- The ghost events of the queue step: nothing, or one pop. -/
theorem check_tx_step_events (sn : StarknetConnection) :
    (check_tx_step sn).2 = [] ∨ ∃ i r, (check_tx_step sn).2 = [Event.txJoin i r] := by
  unfold check_tx_step
  split
  · split
    · left; rfl
    · right; exact ⟨_, _, rfl⟩
  · left; rfl

/-- The stuck configuration after a failed connect: the resource still
holds a handle whose join can only yield a `JoinError`. -/
def FailedStuck (sn : StarknetConnection) : Prop :=
  ∃ task, sn.connecting_task = some task ∧ task.result = none

/-- Every single call keeps the stuck configuration and spawns no new
connect task. -/
theorem stuck_applyOp (o : Op) (sn : StarknetConnection) (h : FailedStuck sn) :
    FailedStuck (applyOp o sn).1 ∧ (applyOp o sn).2.countP isConnectSpawn = 0 := by
  obtain ⟨task, hc, hr⟩ := h
  cases o with
  | init t =>
      rw [applyOp_init, init_busy t sn (Or.inl (by rw [StarknetConnection.is_connecting, hc]; rfl))]
      exact ⟨⟨task, hc, hr⟩, rfl⟩
  | exec t =>
      rw [applyOp_exec]
      unfold execute_transaction
      obtain ⟨ct, ac, txs⟩ := sn
      cases ac with
      | none => exact ⟨⟨task, hc, hr⟩, rfl⟩
      | some a => exact ⟨⟨task, hc, hr⟩, rfl⟩
  | check =>
      rw [applyOp_check]
      unfold check_sn_task
      constructor
      · refine ⟨task, ?_, hr⟩
        rw [check_tx_step_connecting_eq, check_conn_step_err sn task hc hr]
        exact hc
      · rw [check_conn_step_err sn task hc hr]
        rcases check_tx_step_events sn with hev | hev
        · rw [hev]; rfl
        · obtain ⟨i, r, hev2⟩ := hev
          rw [hev2]; rfl

/-- A whole trace from the stuck configuration stays stuck and never
spawns another connect task. -/
theorem stuck_runTrace (ops : List Op) (sn : StarknetConnection) (h : FailedStuck sn) :
    FailedStuck (runTrace ops sn).1 ∧ (runTrace ops sn).2.countP isConnectSpawn = 0 := by
  induction ops generalizing sn with
  | nil => exact ⟨h, rfl⟩
  | cons o rest ih =>
      obtain ⟨h1, h2⟩ := stuck_applyOp o sn h
      obtain ⟨h3, h4⟩ := ih (applyOp o sn).1 h1
      refine ⟨h3, ?_⟩
      unfold runTrace
      rw [List.countP_append, h2, h4]

/-- The ghost events of the connection step: nothing, or one join. -/
theorem check_conn_step_events (sn : StarknetConnection) :
    (check_conn_step sn).2 = [] ∨ (check_conn_step sn).2 = [Event.connectJoinOk] ∨
    (check_conn_step sn).2 = [Event.connectJoinErr] := by
  obtain ⟨ct, ac, txs⟩ := sn
  cases ct with
  | none => left; rfl
  | some task =>
      obtain ⟨r⟩ := task
      cases r with
      | none => right; right; rfl
      | some a => right; left; rfl

/-- After a full tick, the account slot is whatever the connection step
left there (the queue step is a frame for it). -/
theorem check_sn_task_account_eq (sn : StarknetConnection) :
    (check_sn_task sn).1.account = (check_conn_step sn).1.account :=
  check_tx_step_account_eq (check_conn_step sn).1

/-- After a full tick, the connecting-task slot is whatever the connection
step left there (the queue step is a frame for it). -/
theorem check_sn_task_connecting_eq (sn : StarknetConnection) :
    (check_sn_task sn).1.connecting_task = (check_conn_step sn).1.connecting_task :=
  check_tx_step_connecting_eq (check_conn_step sn).1

/-- Unfolding lemma: an empty trace. -/
theorem runTrace_nil (sn : StarknetConnection) : runTrace [] sn = (sn, []) := rfl

/-- Unfolding lemma: one step of a trace. -/
theorem runTrace_cons (o : Op) (rest : List Op) (sn : StarknetConnection) :
    runTrace (o :: rest) sn =
      ((runTrace rest (applyOp o sn).1).1,
        (applyOp o sn).2 ++ (runTrace rest (applyOp o sn).1).2) := rfl

/-- Unfolding lemma: one tick of repeated polling. -/
theorem pollAll_succ (m : Nat) (sn : StarknetConnection) :
    pollAll (m + 1) sn =
      ((pollAll m (check_sn_task sn).1).1,
        (check_sn_task sn).2 ++ (pollAll m (check_sn_task sn).1).2) := rfl

/-- Claim C1, counterexample: with the state Connecting on a connect task
whose join fails (the spawned `connect_to_starknet` panicked, e.g. on a
credential that fails to parse), `check_sn_task` does not clear
`connecting_task` — the state does not transition back to Disconnected,
contrary to the claim. -/
theorem c1_failed_connect_not_cleared :
    (check_sn_task ⟨some ⟨none⟩, none, []⟩).1.connecting_task = some ⟨none⟩ ∧
    (check_sn_task ⟨some ⟨none⟩, none, []⟩).1.is_connecting = true := by
  decide

/-- Claim C1, amended: if the connection state is Connecting and the
connect attempt fails (the join of the connect task yields an error),
`check_sn_task` leaves the state unchanged: `connecting_task` remains the
same `Some` handle and `account` remains `None`; the state stays Connecting
rather than returning to Disconnected, and the only observable effect is
the failed join itself (no state transition). -/
theorem c1_failed_connect_stays_connecting (sn : StarknetConnection)
    (task : ConnectTask) (hc : sn.connecting_task = some task)
    (hr : task.result = none) (ha : sn.account = none) :
    (check_sn_task sn).1.connecting_task = some task ∧
    (check_sn_task sn).1.account = none ∧
    (check_sn_task sn).2 = [Event.connectJoinErr] := by
  have h1 := check_conn_step_err sn task hc hr
  have h2 := check_tx_step_no_account sn ha
  refine ⟨?_, ?_, ?_⟩
  · rw [check_sn_task_connecting_eq, h1]
    exact hc
  · rw [check_sn_task_account_eq, h1]
    exact ha
  · show (check_conn_step sn).2 ++ (check_tx_step (check_conn_step sn).1).2 =
      [Event.connectJoinErr]
    rw [h1]
    show [Event.connectJoinErr] ++ (check_tx_step sn).2 = [Event.connectJoinErr]
    rw [h2]
    rfl

/-- Claim C1, witness for the amended theorem at a concrete failing
connect attempt. -/
theorem c1_failed_connect_stays_connecting_witness :
    (check_sn_task ⟨some ⟨none⟩, none, [⟨0, some (some 3)⟩]⟩).1.connecting_task = some ⟨none⟩ ∧
    (check_sn_task ⟨some ⟨none⟩, none, [⟨0, some (some 3)⟩]⟩).1.account = none ∧
    (check_sn_task ⟨some ⟨none⟩, none, [⟨0, some (some 3)⟩]⟩).2 = [Event.connectJoinErr] :=
  c1_failed_connect_stays_connecting ⟨some ⟨none⟩, none, [⟨0, some (some 3)⟩]⟩ ⟨none⟩ rfl rfl rfl

/-- Claim C3: if joining the in-flight connecting task yields an error
result, `check_sn_task` leaves the `StarknetConnection` state completely
unchanged, `is_connecting()` remains true, a subsequent
`init_starknet_connection` is a no-op, and no sequence of further calls
ever spawns a new connect task. -/
theorem c3_failed_join_state_unchanged (sn : StarknetConnection)
    (task : ConnectTask) (hc : sn.connecting_task = some task)
    (hr : task.result = none) (ha : sn.account = none) :
    (check_sn_task sn).1 = sn ∧
    (check_sn_task sn).1.is_connecting = true ∧
    (∀ t2, init_starknet_connection t2 (check_sn_task sn).1 = ((check_sn_task sn).1, [])) ∧
    (∀ ops, (runTrace ops (check_sn_task sn).1).2.countP isConnectSpawn = 0) := by
  have h1 := check_conn_step_err sn task hc hr
  have h2 := check_tx_step_no_account sn ha
  have heq : (check_sn_task sn).1 = sn := by
    show (check_tx_step (check_conn_step sn).1).1 = sn
    rw [h1]
    show (check_tx_step sn).1 = sn
    rw [h2]
  have hconnecting : (check_sn_task sn).1.is_connecting = true := by
    rw [heq]
    unfold StarknetConnection.is_connecting
    rw [hc]
    rfl
  have hstuck : FailedStuck (check_sn_task sn).1 := ⟨task, by rw [heq]; exact hc, hr⟩
  refine ⟨heq, hconnecting, ?_, ?_⟩
  · intro t2
    exact init_busy t2 (check_sn_task sn).1 (Or.inl hconnecting)
  · intro ops
    exact (stuck_runTrace ops (check_sn_task sn).1 hstuck).2

/-- Claim C3, witness at a concrete failing connect attempt: the tick is
the identity, the state still reports connecting, a fresh init call is a
no-op, and a further trace of one call of each kind spawns nothing. -/
theorem c3_failed_join_state_unchanged_witness :
    (check_sn_task ⟨some ⟨none⟩, none, []⟩).1 = ⟨some ⟨none⟩, none, []⟩ ∧
    (check_sn_task ⟨some ⟨none⟩, none, []⟩).1.is_connecting = true ∧
    (∀ t2, init_starknet_connection t2 (check_sn_task ⟨some ⟨none⟩, none, []⟩).1 =
      ((check_sn_task ⟨some ⟨none⟩, none, []⟩).1, [])) ∧
    (∀ ops, (runTrace ops (check_sn_task ⟨some ⟨none⟩, none, []⟩).1).2.countP
      isConnectSpawn = 0) :=
  c3_failed_join_state_unchanged ⟨some ⟨none⟩, none, []⟩ ⟨none⟩ rfl rfl rfl

/-- Claim C6: whenever `execute_transaction` is invoked while not
connected (`account` is `None`), it returns `false`, spawns no task, and
the pending-transaction queue length is unchanged. -/
theorem c6_execute_disconnected_noop (t : TxTask) (sn : StarknetConnection)
    (ha : sn.account = none) :
    execute_transaction t sn = (sn, false, []) ∧
    (execute_transaction t sn).1.pending_tx_count = sn.pending_tx_count := by
  have he : execute_transaction t sn = (sn, false, []) := by
    unfold execute_transaction
    rw [ha]
  exact ⟨he, by rw [he]⟩

/-- Claim C6, witness: enqueue on the default (disconnected) state returns
`false` with nothing spawned and the queue still empty. -/
theorem c6_execute_disconnected_noop_witness :
    execute_transaction ⟨0, some (some 7)⟩ defaultConnection = (defaultConnection, false, []) ∧
    (execute_transaction ⟨0, some (some 7)⟩ defaultConnection).1.pending_tx_count =
      defaultConnection.pending_tx_count :=
  c6_execute_disconnected_noop ⟨0, some (some 7)⟩ defaultConnection rfl

/-- Claim C10: the queue step of `check_sn_task` leaves the connection
state unchanged — `account` and `connecting_task` keep their values whether
the polled operation succeeded or failed (`t.result` is arbitrary) — and
the polled entry is removed from the queue in both cases, never retried or
re-queued. -/
theorem c10_queue_step_frame (sn : StarknetConnection) (t : TxTask)
    (rest : List TxTask) (hq : sn.pending_txs = t :: rest)
    (ha : sn.account.isSome = true) :
    (check_tx_step sn).1.account = sn.account ∧
    (check_tx_step sn).1.connecting_task = sn.connecting_task ∧
    (check_tx_step sn).1.pending_txs = rest ∧
    (check_tx_step sn).2 = [Event.txJoin t.id t.result] := by
  have hstep : check_tx_step sn =
      (⟨sn.connecting_task, sn.account, rest⟩, [Event.txJoin t.id t.result]) := by
    unfold check_tx_step
    rw [hq]
    simp [ha]
  rw [hstep]
  exact ⟨rfl, rfl, rfl, rfl⟩

/-- Claim C10, witness: polling a queue whose head is a failed operation
(join yields an `AccountError`) removes it and leaves the connection
untouched. -/
theorem c10_queue_step_frame_witness :
    (check_tx_step ⟨none, some 1, [⟨5, some none⟩, ⟨6, some (some 9)⟩]⟩).1.account =
      (⟨none, some 1, [⟨5, some none⟩, ⟨6, some (some 9)⟩]⟩ : StarknetConnection).account ∧
    (check_tx_step ⟨none, some 1, [⟨5, some none⟩, ⟨6, some (some 9)⟩]⟩).1.connecting_task =
      (⟨none, some 1, [⟨5, some none⟩, ⟨6, some (some 9)⟩]⟩ : StarknetConnection).connecting_task ∧
    (check_tx_step ⟨none, some 1, [⟨5, some none⟩, ⟨6, some (some 9)⟩]⟩).1.pending_txs =
      [⟨6, some (some 9)⟩] ∧
    (check_tx_step ⟨none, some 1, [⟨5, some none⟩, ⟨6, some (some 9)⟩]⟩).2 =
      [Event.txJoin 5 (some none)] :=
  c10_queue_step_frame ⟨none, some 1, [⟨5, some none⟩, ⟨6, some (some 9)⟩]⟩
    ⟨5, some none⟩ [⟨6, some (some 9)⟩] rfl rfl

/-- Claim C2, counterexample: the trace "begin a connect whose task fails,
then poll once" reaches a state that still holds the connecting handle
even though the connect attempt has resolved (the trace's ghost events show
the failed join was observed), contradicting "never holds a connecting
task handle after that connect attempt has resolved". -/
theorem c2_handle_retained_after_failure :
    (runTrace [Op.init ⟨none⟩, Op.check] defaultConnection).2 =
      [Event.connectSpawned, Event.connectJoinErr] ∧
    (reach [Op.init ⟨none⟩, Op.check]).connecting_task = some ⟨none⟩ ∧
    (reach [Op.init ⟨none⟩, Op.check]).is_connecting = true := by
  decide

/-- Claim C2, amended: at every reachable state the connecting-task slot
and the account slot are mutually exclusive (never both held), and a
connect attempt that resolves with success always clears the handle on the
tick that observes it; but a connect attempt that resolves with failure
leaves the handle held, so the claim's "never holds a connecting handle
after the attempt resolved (whether with success or failure)" only holds
for success. -/
theorem c2_mutual_exclusion (ops : List Op) :
    (¬((reach ops).connecting_task.isSome = true ∧
        (reach ops).account.isSome = true)) ∧
    (∀ task a, (reach ops).connecting_task = some task → task.result = some a →
      (check_sn_task (reach ops)).1.connecting_task = none) := by
  constructor
  · rintro ⟨h1, h2⟩
    rcases mutex_reach ops with h | h
    · rw [h] at h1
      simp at h1
    · rw [h] at h2
      simp at h2
  · intro task a hc hr
    rw [check_sn_task_connecting_eq, check_conn_step_ok (reach ops) task a hc hr]

/-- Claim C2, witness for the amended theorem: on the state reached by one
successful `begin_connect`, the poll that observes the successful join
clears the handle. -/
theorem c2_mutual_exclusion_witness :
    (check_sn_task (reach [Op.init ⟨some 5⟩])).1.connecting_task = none :=
  (c2_mutual_exclusion [Op.init ⟨some 5⟩]).2 ⟨some 5⟩ 5 (by decide) rfl

/-- Claim C7: after `init_starknet_connection` with a valid configuration
(from a state that is neither connecting nor connected), the state becomes
Connecting; on the first `check_sn_task` after the background connect task
resolves successfully, the state becomes Connected: `account` is the
resolved session, `connecting_task` is cleared, and `is_connected()`
returns true. -/
theorem c7_connect_success_path (sn : StarknetConnection) (t : ConnectTask)
    (a : Nat) (hc : sn.connecting_task = none) (ha : sn.account = none)
    (hr : t.result = some a) :
    (init_starknet_connection t sn).1.is_connecting = true ∧
    (init_starknet_connection t sn).1.account = none ∧
    (check_sn_task (init_starknet_connection t sn).1).1.account = some a ∧
    (check_sn_task (init_starknet_connection t sn).1).1.connecting_task = none ∧
    (check_sn_task (init_starknet_connection t sn).1).1.is_connected = true := by
  have hinit1 : (init_starknet_connection t sn).1 = ⟨some t, sn.account, sn.pending_txs⟩ := by
    unfold init_starknet_connection
    rw [hc, ha]
    rfl
  have hconn : check_conn_step (⟨some t, sn.account, sn.pending_txs⟩ : StarknetConnection) =
      (⟨none, some a, sn.pending_txs⟩, [Event.connectJoinOk]) :=
    check_conn_step_ok ⟨some t, sn.account, sn.pending_txs⟩ t a rfl hr
  refine ⟨?_, ?_, ?_, ?_, ?_⟩
  · rw [hinit1]
    rfl
  · rw [hinit1]
    exact ha
  · rw [hinit1, check_sn_task_account_eq, hconn]
  · rw [hinit1, check_sn_task_connecting_eq, hconn]
  · unfold StarknetConnection.is_connected
    rw [hinit1, check_sn_task_account_eq, hconn]
    rfl

/-- Claim C7, witness: the whole success path at a concrete config whose
connect task resolves to account 3. -/
theorem c7_connect_success_path_witness :
    (init_starknet_connection ⟨some 3⟩ defaultConnection).1.is_connecting = true ∧
    (init_starknet_connection ⟨some 3⟩ defaultConnection).1.account = none ∧
    (check_sn_task (init_starknet_connection ⟨some 3⟩ defaultConnection).1).1.account = some 3 ∧
    (check_sn_task (init_starknet_connection ⟨some 3⟩ defaultConnection).1).1.connecting_task = none ∧
    (check_sn_task (init_starknet_connection ⟨some 3⟩ defaultConnection).1).1.is_connected = true :=
  c7_connect_success_path defaultConnection ⟨some 3⟩ 3 rfl rfl rfl

/-- Claim C8: once the state is Connected (`account` is `Some`), no
sequence of further core calls (`init_starknet_connection`,
`execute_transaction`, `check_sn_task`) ever makes it revert to
Disconnected or Connecting: the account stays present and the
connecting-task slot stays empty. -/
theorem c8_connected_is_absorbing (ops ops2 : List Op)
    (h : (reach ops).is_connected = true) :
    (runTrace ops2 (reach ops)).1.is_connected = true ∧
    (runTrace ops2 (reach ops)).1.connecting_task = none := by
  have hc : (reach ops).connecting_task = none := by
    rcases mutex_reach ops with h1 | h1
    · exact h1
    · unfold StarknetConnection.is_connected at h
      rw [h1] at h
      simp at h
  have hs := connected_runTrace ops2 (reach ops) ⟨h, hc⟩
  exact ⟨hs.1, hs.2⟩

/-- Claim C8, witness: connect successfully, then run one call of each
kind; the state stays Connected throughout. -/
theorem c8_connected_is_absorbing_witness :
    (runTrace [Op.check, Op.exec ⟨9, some (some 2)⟩, Op.init ⟨some 7⟩]
      (reach [Op.init ⟨some 4⟩, Op.check])).1.is_connected = true ∧
    (runTrace [Op.check, Op.exec ⟨9, some (some 2)⟩, Op.init ⟨some 7⟩]
      (reach [Op.init ⟨some 4⟩, Op.check])).1.connecting_task = none :=
  c8_connected_is_absorbing [Op.init ⟨some 4⟩, Op.check]
    [Op.check, Op.exec ⟨9, some (some 2)⟩, Op.init ⟨some 7⟩] (by decide)

/-- Claim C9: one call to `check_sn_task` joins at most one connect task
and at most one queue entry, and the pending-transaction queue length
decreases by at most one, regardless of queue depth. -/
theorem c9_bounded_per_tick_work (sn : StarknetConnection) :
    (check_sn_task sn).2.countP isConnectJoin ≤ 1 ∧
    (check_sn_task sn).2.countP isTxJoin ≤ 1 ∧
    (check_sn_task sn).1.pending_txs.length ≤ sn.pending_txs.length ∧
    sn.pending_txs.length ≤ (check_sn_task sn).1.pending_txs.length + 1 := by
  have hev : (check_sn_task sn).2 =
      (check_conn_step sn).2 ++ (check_tx_step (check_conn_step sn).1).2 := rfl
  have hp := check_tx_step_pending (check_conn_step sn).1
  rw [check_conn_step_pending_eq] at hp
  have hp1 : (check_sn_task sn).1.pending_txs = sn.pending_txs ∨
      (check_sn_task sn).1.pending_txs = sn.pending_txs.tail := hp
  refine ⟨?_, ?_, ?_, ?_⟩
  · rcases check_conn_step_events sn with hc | hc | hc <;>
      rcases check_tx_step_events (check_conn_step sn).1 with ht | ⟨i, r, ht⟩ <;>
      rw [hev, hc, ht] <;> simp [isConnectJoin]
  · rcases check_conn_step_events sn with hc | hc | hc <;>
      rcases check_tx_step_events (check_conn_step sn).1 with ht | ⟨i, r, ht⟩ <;>
      rw [hev, hc, ht] <;> simp [isTxJoin]
  · rcases hp1 with hq | hq
    · rw [hq]
    · rw [hq, List.length_tail]
      exact Nat.sub_le _ _
  · rcases hp1 with hq | hq
    · rw [hq]
      exact Nat.le_succ _
    · rw [hq, List.length_tail]
      omega

/-- Claim C4: for every state in which `is_connecting()` or
`is_connected()` is true, `init_starknet_connection` spawns zero tasks and
leaves the entire `StarknetConnection` state (connecting task, account,
pending queue) unchanged; and across any sequence of
`init_starknet_connection` calls, at most one connect task is ever
spawned. -/
theorem c4_single_connect_in_flight (sn : StarknetConnection) :
    (∀ t, (sn.is_connecting = true ∨ sn.is_connected = true) →
      init_starknet_connection t sn = (sn, [])) ∧
    (∀ ts : List ConnectTask,
      (runTrace (List.map Op.init ts) sn).2.countP isConnectSpawn ≤ 1) := by
  constructor
  · intro t h
    exact init_busy t sn h
  · intro ts
    obtain ⟨ct, ac, txs⟩ := sn
    cases ct with
    | some c =>
        rw [runTrace_inits_busy ts ⟨some c, ac, txs⟩ (Or.inl rfl)]
        simp
    | none =>
        cases ac with
        | some a =>
            rw [runTrace_inits_busy ts ⟨none, some a, txs⟩ (Or.inr rfl)]
            simp
        | none =>
            cases ts with
            | nil => simp [runTrace_nil]
            | cons t rest =>
                have h1a : (applyOp (Op.init t) (⟨none, none, txs⟩ : StarknetConnection)).1 =
                    ⟨some t, none, txs⟩ := rfl
                have h1b : (applyOp (Op.init t) (⟨none, none, txs⟩ : StarknetConnection)).2 =
                    [Event.connectSpawned] := rfl
                rw [List.map_cons, runTrace_cons, h1a, h1b,
                  runTrace_inits_busy rest ⟨some t, none, txs⟩ (Or.inl rfl)]
                simp [isConnectSpawn]

/-- Claim C4, witness: on a connected state a fresh init call is a no-op
with no spawn, and a run of two init calls from that state spawns
nothing. -/
theorem c4_single_connect_in_flight_witness :
    init_starknet_connection ⟨some 1⟩ ⟨none, some 2, []⟩ = (⟨none, some 2, []⟩, []) ∧
    (runTrace (List.map Op.init [⟨some 1⟩, ⟨none⟩]) ⟨none, some 2, []⟩).2.countP
      isConnectSpawn ≤ 1 :=
  ⟨(c4_single_connect_in_flight ⟨none, some 2, []⟩).1 ⟨some 1⟩ (Or.inr rfl),
    (c4_single_connect_in_flight ⟨none, some 2, []⟩).2 [⟨some 1⟩, ⟨none⟩]⟩

/-- Claim C5: `execute_transaction` appends exactly to the tail of the
queue; each tick removes exactly the head element and no other; and from a
connected state holding any queue of pending operations, repeated polling
observes their outcomes (their ids and fixed join results) exactly in
enqueue order, regardless of how the background tasks completed. -/
theorem c5_fifo_outcome_order (a : Nat) (ts : List TxTask) (t : TxTask)
    (sn : StarknetConnection) :
    (sn.account.isSome = true →
      (execute_transaction t sn).1.pending_txs = sn.pending_txs ++ [t]) ∧
    ((check_sn_task sn).1.pending_txs = sn.pending_txs ∨
      (check_sn_task sn).1.pending_txs = sn.pending_txs.tail) ∧
    ((pollAll ts.length ⟨none, some a, ts⟩).2 =
      ts.map (fun u => Event.txJoin u.id u.result)) := by
  refine ⟨?_, ?_, ?_⟩
  · intro h
    obtain ⟨x, hx⟩ := Option.isSome_iff_exists.mp h
    unfold execute_transaction
    rw [hx]
  · have hp := check_tx_step_pending (check_conn_step sn).1
    rw [check_conn_step_pending_eq] at hp
    exact hp
  · induction ts with
    | nil => rfl
    | cons u rest ih =>
        have hstep : check_sn_task (⟨none, some a, u :: rest⟩ : StarknetConnection) =
            (⟨none, some a, rest⟩, [Event.txJoin u.id u.result]) := rfl
        have h1 : (check_sn_task (⟨none, some a, u :: rest⟩ : StarknetConnection)).1 =
            ⟨none, some a, rest⟩ := by rw [hstep]
        have h2 : (check_sn_task (⟨none, some a, u :: rest⟩ : StarknetConnection)).2 =
            [Event.txJoin u.id u.result] := by rw [hstep]
        rw [List.length_cons, pollAll_succ, h1, h2, ih]
        simp [List.map_cons]

/-- Claim C5, witness: a connected state with queue [id 2, id 4] (the
first failed in the background, the second succeeded) is observed in
enqueue order 2 then 4; an enqueue on it appends at the tail; a tick on a
state with no connect task pops at most the head. -/
theorem c5_fifo_outcome_order_witness :
    ((execute_transaction ⟨7, none⟩ ⟨none, some 1, [⟨2, some none⟩]⟩).1.pending_txs =
      [⟨2, some none⟩] ++ [⟨7, none⟩]) ∧
    ((check_sn_task ⟨none, some 1, [⟨2, some none⟩]⟩).1.pending_txs =
        (⟨none, some 1, [⟨2, some none⟩]⟩ : StarknetConnection).pending_txs ∨
      (check_sn_task ⟨none, some 1, [⟨2, some none⟩]⟩).1.pending_txs =
        (⟨none, some 1, [⟨2, some none⟩]⟩ : StarknetConnection).pending_txs.tail) ∧
    ((pollAll ([⟨2, some none⟩, ⟨4, some (some 9)⟩] : List TxTask).length
        ⟨none, some 1, [⟨2, some none⟩, ⟨4, some (some 9)⟩]⟩).2 =
      [Event.txJoin 2 (some none), Event.txJoin 4 (some (some 9))]) := by
  have h := c5_fifo_outcome_order 1 [⟨2, some none⟩, ⟨4, some (some 9)⟩] ⟨7, none⟩
    ⟨none, some 1, [⟨2, some none⟩]⟩
  exact ⟨h.1 rfl, h.2.1, h.2.2⟩
